import Mathlib

/-!
# Shallow embedding of the eSCL protocol scanner core

This file embeds, in Lean 4, the claim-relevant parts of the
`escl-protocol-scanner` TypeScript repository:

* `ESCLClient.parseCapabilities`, `ESCLClient.buildScanSettings` and
  `ESCLClient.createScanJob` (the `src/unnamed/part_002` variant of the
  client, the one with HTTP status classification, A4 defaults and
  `documentFormats` support);
* `quickScan`, `downloadNextDocument` and `deleteScanJob` from
  `src/src/index.ts` (the orchestrator variant that rethrows errors and
  takes a `documentFormat` parameter);
* `ESCLDiscovery.startDiscovery` / `validatePythonPath` from
  `src/unnamed/part_001`.

Modelling conventions:

* Regex extraction over the capabilities XML is abstracted by a structure
  holding, for each regex of `parseCapabilities`, the ordered list of its
  matches; order and repetition of matches are preserved, so quantifying
  over the structure quantifies over extraction outcomes of arbitrary
  documents.
* JavaScript `Array.from(new Set(xs))` is `jsSetDedup` (first-occurrence
  order); `xs.sort((a, b) => a - b)` on numbers is ascending sorting, which
  on a list of naturals is the unique ascending permutation, embedded as
  `List.insertionSort (· ≤ ·)`.
* HTTP traffic is explicit data: an HTTP interaction is a status code plus
  body (or a network failure without a status), and the device behind the
  page-download loop is a function from the request index to its response.
* `async`/`await` sequencing is direct state passing; promise rejection is
  `Except.error`; a `while (true)` loop is structural recursion on fuel,
  with `none` denoting fuel exhaustion (the claims only concern executions
  that terminate, which they all do for the devices considered).
* Timers (`setTimeout`) carry no content beyond their delay; waits are
  tallied in milliseconds where a claim mentions them.
* The floating-point expression `Math.round(mm / 25.4 * 300)` is embedded
  exactly over `ℚ` (`⌊q + 1/2⌋`, JavaScript round-half-up); the inputs of
  the claims are small integers, far from any double-rounding boundary.
* `maxWidth`/`maxHeight` of `parseCapabilities` are omitted: no claim
  mentions them and they are independent of all other outputs.
-/

namespace ESCL

/-- `Array.from(new Set(xs))`: deduplication keeping the first occurrence
of each element, in insertion order, as a JavaScript `Set` does. -/
def jsSetDedup {α : Type} [DecidableEq α] (l : List α) : List α :=
  l.foldl (fun acc x => if x ∈ acc then acc else acc ++ [x]) []

/-- `xs.sort((a, b) => a - b)` on numbers: the ascending sorted permutation
(unique given the input multiset), embedded as insertion sort. -/
def sortAsc (l : List Nat) : List Nat :=
  l.insertionSort (· ≤ ·)

/-- Result record of `parseCapabilities` (interface `IESCLCapabilities`,
restricted to the fields the claims mention). -/
structure Capabilities where
  resolutions : List Nat
  colorModes : List String
  sources : List String
  documentFormats : List String
  deriving Repr, DecidableEq

/-- Abstraction of a scanner-capabilities XML document as the ordered match
lists of the regexes used by `parseCapabilities` (src/unnamed/part_002):
values captured inside `DiscreteResolution` blocks, values captured by the
bare `XResolution` fallback pattern, `ColorMode` words, `InputSource`
words, presence of bare `Platen`/`Adf` elements, and
`DocumentFormat`/`DocumentFormatExt` contents. -/
structure CapabilitiesXml where
  discreteXResolutions : List Nat
  plainXResolutions : List Nat
  colorModeTags : List String
  inputSourceTags : List String
  hasPlatenElement : Bool
  hasAdfElement : Bool
  documentFormatTags : List String
  deriving Repr

/-- `ESCLClient.parseCapabilities` (src/unnamed/part_002 lines 195–307):
collect resolutions from `DiscreteResolution` matches, falling back to the
bare `XResolution` pattern (which dedups with `includes` while pushing);
filter colour modes and sources against their allowed literals, falling
back to bare `Platen`/`Adf` elements when no `InputSource` matched; collect
document formats with an `includes` dedup and a trailing `image/jpeg`
default; finally dedup each list through a `Set` and numerically sort the
resolutions ascending. -/
def parseCapabilities (xml : CapabilitiesXml) : Capabilities :=
  let resolutions :=
    if xml.discreteXResolutions.isEmpty then
      xml.plainXResolutions.foldl
        (fun acc r => if r ∈ acc then acc else acc ++ [r]) []
    else
      xml.discreteXResolutions
  let colorModes :=
    xml.colorModeTags.filter
      (fun m => ["BlackAndWhite1", "Grayscale8", "RGB24"].contains m)
  let sources0 :=
    xml.inputSourceTags.filter
      (fun s => ["Platen", "Adf", "Feeder"].contains s)
  let sources :=
    if sources0.isEmpty then
      (if xml.hasPlatenElement then ["Platen"] else []) ++
        (if xml.hasAdfElement then ["Adf"] else [])
    else
      sources0
  let documentFormats0 :=
    xml.documentFormatTags.foldl
      (fun acc f =>
        let f := f.trim
        if f ≠ "" ∧ f ∉ acc then acc ++ [f] else acc) []
  let documentFormats :=
    if documentFormats0.isEmpty then ["image/jpeg"] else documentFormats0
  { resolutions := sortAsc (jsSetDedup resolutions)
    colorModes := jsSetDedup colorModes
    sources := jsSetDedup sources
    documentFormats := jsSetDedup documentFormats }

/-- JavaScript `Math.round` for the nonnegative quantities at hand:
round half up, `⌊q + 1/2⌋`. -/
def jsRound (q : ℚ) : ℤ :=
  ⌊q + 1 / 2⌋

/-- `const widthInUnits = Math.round((width || 210) / 25.4 * 300)`
(src/unnamed/part_002 line 162): millimetres to 1/300-inch units, width
defaulting to A4's 210mm. -/
def widthInUnits (width : Option ℚ) : ℤ :=
  jsRound ((width.getD 210) / (254 / 10) * 300)

/-- `const heightInUnits = Math.round((height || 297) / 25.4 * 300)`
(src/unnamed/part_002 line 163): millimetres to 1/300-inch units, height
defaulting to A4's 297mm. -/
def heightInUnits (height : Option ℚ) : ℤ :=
  jsRound ((height.getD 297) / (254 / 10) * 300)

/-- `ESCLClient.buildScanSettings` (src/unnamed/part_002 lines 157–188):
the interpolated scan-settings XML document. -/
def buildScanSettings (dpi : Nat) (colorMode source documentFormat : String)
    (width height : Option ℚ) : String :=
  "<?xml version=\"1.0\" encoding=\"UTF-8\"?>\n" ++
  "<scan:ScanSettings xmlns:scan=\"http://schemas.hp.com/imaging/escl/2011/05/03\" xmlns:pwg=\"http://www.pwg.org/schemas/2010/12/sm\">\n" ++
  "  <pwg:Version>2.0</pwg:Version>\n" ++
  "  <scan:Intent>Document</scan:Intent>\n" ++
  "  <pwg:ScanRegions>\n" ++
  "    <pwg:ScanRegion>\n" ++
  "      <pwg:ContentRegionUnits>escl:ThreeHundredthsOfInches</pwg:ContentRegionUnits>\n" ++
  "      <pwg:XOffset>0</pwg:XOffset>\n" ++
  "      <pwg:YOffset>0</pwg:YOffset>\n" ++
  "      <pwg:Width>" ++ toString (widthInUnits width) ++ "</pwg:Width>\n" ++
  "      <pwg:Height>" ++ toString (heightInUnits height) ++ "</pwg:Height>\n" ++
  "    </pwg:ScanRegion>\n" ++
  "  </pwg:ScanRegions>\n" ++
  "  <scan:Justification>\n" ++
  "    <pwg:XImagePosition>Center</pwg:XImagePosition>\n" ++
  "    <pwg:YImagePosition>Center</pwg:YImagePosition>\n" ++
  "  </scan:Justification>\n" ++
  "  <pwg:InputSource>" ++ source ++ "</pwg:InputSource>\n" ++
  "  <scan:ColorMode>" ++ colorMode ++ "</scan:ColorMode>\n" ++
  "  <scan:XResolution>" ++ toString dpi ++ "</scan:XResolution>\n" ++
  "  <scan:YResolution>" ++ toString dpi ++ "</scan:YResolution>\n" ++
  "  <pwg:DocumentFormat>" ++ documentFormat ++ "</pwg:DocumentFormat>\n" ++
  "</scan:ScanSettings>"

/-- Does the character list `p` begin the character list `s`? -/
def charsBegin : List Char → List Char → Bool
  | [], _ => true
  | _ :: _, [] => false
  | p :: ps, c :: cs => p == c && charsBegin ps cs

/-- Does `pat` occur as a contiguous sublist of `s`? -/
def charsOccur (pat : List Char) : List Char → Bool
  | [] => charsBegin pat []
  | c :: cs => charsBegin pat (c :: cs) || charsOccur pat cs

/-- Substring containment on strings, via the character lists. -/
def strContainsSub (s pat : String) : Bool :=
  charsOccur pat.data s.data

/-- The character class `[a-f0-9-]` of the job-id capture group. -/
def isJobIdChar (c : Char) : Bool :=
  ('a' ≤ c && c ≤ 'f') || ('0' ≤ c && c ≤ '9') || c == '-'

/-- The literal part of the job-id regex `/\/eSCL\/ScanJobs\/([a-f0-9-]+)/`. -/
def jobIdLiteral : List Char :=
  "/eSCL/ScanJobs/".data

/-- `jobResponse.match(/\/eSCL\/ScanJobs\/([a-f0-9-]+)/)`: find the leftmost
position where the literal is followed by at least one `[a-f0-9-]`
character and capture the maximal such run; `none` when the pattern occurs
nowhere. -/
def findJobId : List Char → Option (List Char)
  | [] => none
  | c :: cs =>
      if charsBegin jobIdLiteral (c :: cs) then
        let run := ((c :: cs).drop jobIdLiteral.length).takeWhile isJobIdChar
        if run.isEmpty then findJobId cs else some run
      else findJobId cs

/-- The job id (capture group 1) extracted from a job-creation response
string, as a string. -/
def extractJobId (s : String) : Option String :=
  (findJobId s.data).map (fun cs => String.mk cs)

/-- Whether the head of a character list is a job-id character. -/
def jobIdCharAtHead : List Char → Bool
  | [] => false
  | c :: _ => isJobIdChar c

/-- The job-id regex matches at position `i` of `s`: the literal
`/eSCL/ScanJobs/` begins at `i` and is followed by at least one
`[a-f0-9-]` character. -/
def jobIdPatternAt (s : List Char) (i : Nat) : Prop :=
  charsBegin jobIdLiteral (s.drop i) = true ∧
    jobIdCharAtHead (s.drop (i + jobIdLiteral.length)) = true

instance (s : List Char) (i : Nat) : Decidable (jobIdPatternAt s i) := by
  unfold jobIdPatternAt
  infer_instance

/-- One HTTP POST exchange as seen by `ESCLClient.httpPost`
(src/unnamed/part_002 lines 368–402): either a response with a status,
a body and an optional `Location` header, or a network-level failure
(socket error / timeout) that carries no HTTP status. -/
inductive PostExchange where
  | response (status : Nat) (body : String) (location : Option String)
  | netFailure
  deriving Repr, DecidableEq

/-- The value `ESCLClient.httpPost` resolves with on a 201 or 200 status:
`data || res.headers.location || ''` (the accumulated body when non-empty,
else the `Location` header when present and non-empty, else the empty
string). On any other status the promise is rejected with
`new Error('HTTP <status>')`, from which `createScanJob`'s handler recovers
the status via `error.code || parseInt(error.message.match(/HTTP (\d+)/)?.[1])`;
a network failure carries no status (`none`). -/
def postResolvedValue (body : String) (location : Option String) : String :=
  if body ≠ "" then body
  else match location with
       | some l => if l ≠ "" then l else ""
       | none => ""

/-- The resolve/reject behaviour of `ESCLClient.httpPost` over one
exchange. -/
def httpPost : PostExchange → Except (Option Nat) String
  | .response status body location =>
      if status = 201 ∨ status = 200 then .ok (postResolvedValue body location)
      else .error (some status)
  | .netFailure => .error none

/-- The errors `ESCLClient.createScanJob` can reject with: the three
classified errors thrown by its catch handler, or the original transport
error rethrown for any unclassified status. -/
inductive CreateJobError where
  | scannerBusy
  | adfNoDocument
  | scannerUnavailable
  | rethrown (statusCode : Option Nat)
  deriving Repr, DecidableEq

/-- `ESCLClient.createScanJob` (src/unnamed/part_002 lines 52–96): POST the
settings document; on success extract the job id from the response (or
resolve `none` when the pattern is absent); on failure classify by status:
409 → `[SCANNER_BUSY]`, 500 with source `Feeder` → `[ADF_NO_DOCUMENT]`,
503 → `[SCANNER_UNAVAILABLE]`, anything else → rethrow the original
error. -/
def createScanJob (source : String) (post : PostExchange) :
    Except CreateJobError (Option String) :=
  match httpPost post with
  | .ok jobResponse => .ok (extractJobId jobResponse)
  | .error statusCode =>
      if statusCode = some 409 then .error .scannerBusy
      else if statusCode = some 500 ∧ source = "Feeder" then
        .error .adfNoDocument
      else if statusCode = some 503 then .error .scannerUnavailable
      else .error (.rethrown statusCode)

/-- One response of the device to a `GET <jobUrl>/NextDocument` request, as
seen by `httpGetBinary` (src/src/index.ts lines 271–296): binary bytes on
status 200, a rejection carrying the status (`error.code`) otherwise, or a
network-level failure without a status. -/
inductive DeviceResponse where
  | ok (bytes : List Nat)
  | httpError (status : Nat)
  | netError
  deriving Repr, DecidableEq

/-- The observable outcomes of one `downloadNextDocument` call: an image
buffer, a `null` return (404 end-of-pages or an unclassified error), or one
of its two thrown errors. -/
inductive DownloadOutcome where
  | image (bytes : List Nat)
  | nullResult
  | thrownAdfNoDocument
  | thrownScannerBusy
  deriving Repr, DecidableEq

/-- `downloadNextDocument` (src/src/index.ts lines 220–253), over a device
given as a function from the request index to its response. Arguments
after the device: the retry delay in ms, the ADF flag, the remaining
attempt budget (`maxRetries` at the start), and the index of the next
request. Returns the outcome, the next unused request index, and the total
milliseconds spent in retry waits: per attempt, 200 → return the buffer;
404 → return `null`; 409 → wait `retryDelay` and retry; 500 in ADF mode →
throw `[ADF_NO_DOCUMENT]`; any other failure → log and return `null`;
budget exhausted → throw `[SCANNER_BUSY]`. -/
def downloadNextDocument (device : Nat → DeviceResponse) (retryDelay : Nat)
    (isAdf : Bool) : Nat → Nat → DownloadOutcome × Nat × Nat
  | 0, idx => (.thrownScannerBusy, idx, 0)
  | fuel + 1, idx =>
      match device idx with
      | .ok bytes => (.image bytes, idx + 1, 0)
      | .httpError status =>
          if status = 404 then (.nullResult, idx + 1, 0)
          else if status = 409 then
            let r := downloadNextDocument device retryDelay isAdf fuel (idx + 1)
            (r.1, r.2.1, retryDelay + r.2.2)
          else if status = 500 ∧ isAdf then (.thrownAdfNoDocument, idx + 1, 0)
          else (.nullResult, idx + 1, 0)
      | .netError => (.nullResult, idx + 1, 0)

/-- Split a character list at every occurrence of the separator, as
JavaScript `String.split` with a single-character separator does. -/
def splitOnCharList (sep : Char) : List Char → List (List Char)
  | [] => [[]]
  | c :: cs =>
      match splitOnCharList sep cs with
      | [] => [[]]
      | g :: gs => if c == sep then [] :: g :: gs else (c :: g) :: gs

/-- The file-extension derivation of `saveImageToFile` (src/src/index.ts
lines 200–201): `documentFormat.split('/').pop()`, with `jpeg` replaced by
`jpg`. -/
def extOf (documentFormat : String) : String :=
  let e := String.mk ((splitOnCharList '/' documentFormat.data).getLastD [])
  if e = "jpeg" then "jpg" else e

/-- One file persisted by `saveImageToFile`: the page number and extension
that appear in its generated `scan_<timestamp>_page<n>.<ext>` name, and the
written bytes. The wall-clock timestamp is not modelled. -/
structure SavedFile where
  pageNum : Nat
  ext : String
  bytes : List Nat
  deriving Repr, DecidableEq

/-- `saveImageToFile` (src/src/index.ts lines 190–215) with the filesystem
abstracted: always succeeds, recording page number, derived extension and
bytes. -/
def saveImageToFile (pageNum : Nat) (documentFormat : String)
    (bytes : List Nat) : SavedFile :=
  ⟨pageNum, extOf documentFormat, bytes⟩

/-- The errors `quickScan` can reject with. -/
inductive QuickScanError where
  | invalidColorMode
  | scanJobFailed
  | createError (e : CreateJobError)
  | firstPageFailed
  | adfNoDocument
  | scannerBusy
  deriving Repr, DecidableEq

/-- The `source` parameter of `quickScan`: `'Platen' | 'Feeder'`. -/
inductive ScanSource where
  | platen
  | feeder
  deriving Repr, DecidableEq

/-- `const isAdf = source === 'Feeder'` (src/src/index.ts line 140). -/
def isAdfSource : ScanSource → Bool
  | .feeder => true
  | .platen => false

/-- The `colorModeMap` lookup of `quickScan` (src/src/index.ts
lines 113–119). -/
def colorModeMap (mode : String) : Option String :=
  if mode = "bw" then some "BlackAndWhite1"
  else if mode = "gray" then some "Grayscale8"
  else if mode = "color" then some "RGB24"
  else none

/-- The `while (true)` page-download loop of `quickScan` (src/src/index.ts
lines 142–171), by structural recursion on a fuel bound on the number of
iterations (`none` = fuel exhausted before the loop ended). State:
`pageNum`, next device-request index, accumulated `filePaths`. Each
iteration calls `downloadNextDocument` with `maxRetries = 30` and
`retryDelay = 1000` as at the call site (line 144): a thrown error
propagates; a `null` result throws the first-page failure when
`pageNum = 1` and otherwise breaks with the pages saved so far; an image is
saved and appended, after which the loop breaks when the source is not ADF
and otherwise continues with `pageNum + 1`. -/
def scanLoop (device : Nat → DeviceResponse) (isAdf : Bool)
    (documentFormat : String) :
    Nat → Nat → Nat → List SavedFile →
    Option (Except QuickScanError (List SavedFile))
  | 0, _, _, _ => none
  | fuel + 1, pageNum, idx, filePaths =>
      match downloadNextDocument device 1000 isAdf 30 idx with
      | (.image bytes, idx2, _) =>
          let filePaths2 :=
            filePaths ++ [saveImageToFile pageNum documentFormat bytes]
          if isAdf then scanLoop device isAdf documentFormat fuel
            (pageNum + 1) idx2 filePaths2
          else some (.ok filePaths2)
      | (.nullResult, _, _) =>
          if pageNum = 1 then some (.error .firstPageFailed)
          else some (.ok filePaths)
      | (.thrownAdfNoDocument, _, _) => some (.error .adfNoDocument)
      | (.thrownScannerBusy, _, _) => some (.error .scannerBusy)

/-- `deleteScanJob` (src/src/index.ts lines 258–266): attempt the DELETE;
its own `catch` swallows any failure, so neither branch surfaces an
error. -/
def deleteScanJob (deleteFails : Bool) : Unit :=
  match (if deleteFails then Except.error () else Except.ok () :
      Except Unit Unit) with
  | .ok _ => ()
  | .error _ => ()

/-- `quickScan` (src/src/index.ts lines 92–181), parametrised by the result
of the `createScanJob` call (the 7-argument client of
src/unnamed/part_002), the device's responses to the `NextDocument`
requests, whether the cleanup DELETE would fail, and loop fuel. Returns
`none` when the fuel runs out, otherwise the session result — the rejected
error, or the resolved `string[] | null` value — paired with the number of
job-deletion attempts made. Mirrors the source: mode validation, job
creation (a `null` id throws `[SCAN_JOB_FAILED]`, a classified error is
rethrown by the outer catch), the fixed 5000ms warm-up (no observable
content), the download loop, one cleanup deletion after a normal loop exit,
and `filePaths.length > 0 ? filePaths : null`. -/
def quickScan (mode : String) (source : ScanSource) (documentFormat : String)
    (createResult : Except CreateJobError (Option String))
    (device : Nat → DeviceResponse) (deleteFails : Bool) (fuel : Nat) :
    Option (Except QuickScanError (Option (List SavedFile)) × Nat) :=
  match colorModeMap mode with
  | none => some (.error .invalidColorMode, 0)
  | some _ =>
      match createResult with
      | .error e => some (.error (.createError e), 0)
      | .ok none => some (.error .scanJobFailed, 0)
      | .ok (some _) =>
          match scanLoop device (isAdfSource source) documentFormat fuel
              1 0 [] with
          | none => none
          | some (.error e) => some (.error e, 0)
          | some (.ok filePaths) =>
              let _ := deleteScanJob deleteFails
              some (.ok (if filePaths.length > 0 then some filePaths
                         else none), 1)

/-- A scanner record delivered by the discovery helper (the fields the
claims need). -/
structure Scanner where
  name : String
  host : String
  port : Nat
  deriving Repr, DecidableEq

/-- The filesystem facts `ESCLDiscovery` probes (src/unnamed/part_001):
the prebuilt binary path when one exists on disk (`getBinaryPath`),
whether the configured python path is absolute, and the two
`fs.existsSync` probes of `validatePythonPath` (on the path itself for an
absolute path, on its cwd-resolution otherwise). -/
structure DiscoveryEnv where
  binaryPath : Option String
  pythonPathIsAbsolute : Bool
  pythonPathExists : Bool
  resolvedPythonPathExists : Bool
  deriving Repr, DecidableEq

/-- `ESCLDiscovery.validatePythonPath` (src/unnamed/part_001 lines 66–92):
skipped when a prebuilt binary is available; otherwise the (absolute or
cwd-resolved) python path must exist on disk, else an error is thrown. -/
def validatePythonPath (env : DiscoveryEnv) : Except String Unit :=
  if env.binaryPath.isSome then .ok ()
  else if env.pythonPathIsAbsolute then
    if env.pythonPathExists then .ok ()
    else .error "Python executable not found"
  else
    if env.resolvedPythonPathExists then .ok ()
    else .error "Python executable not found"

/-- One parsed line of helper output (src/unnamed/part_001 lines 207–228):
a success message carrying the full device set, an error message (logged,
registry untouched), or a malformed line (skipped). -/
inductive HelperMessage where
  | success (scanners : List Scanner)
  | failure (error : String)
  | malformed
  deriving Repr, DecidableEq

/-- JavaScript `Map.set` keyed by scanner name: an existing key keeps its
position and receives the new value; a new key is appended. -/
def mapSet (m : List (String × Scanner)) (k : String) (v : Scanner) :
    List (String × Scanner) :=
  if m.any (fun p => p.1 == k) then
    m.map (fun p => if p.1 == k then (k, v) else p)
  else m ++ [(k, v)]

/-- The registry contents after a success message: cleared, then each
scanner inserted under its name (later same-name entries overwrite), read
back in `Map.values()` order. -/
def registryAfterSuccess (scanners : List Scanner) : List Scanner :=
  (scanners.foldl (fun m s => mapSet m s.name s) []).map (fun p => p.2)

/-- The first success message of the helper-output sequence, if any. -/
def firstSuccess : List HelperMessage → Option (List Scanner)
  | [] => none
  | .success s :: _ => some s
  | .failure _ :: rest => firstSuccess rest
  | .malformed :: rest => firstSuccess rest

/-- The `IDiscoveryResponse` value `startDiscovery` resolves with. -/
structure DiscoveryResponse where
  success : Bool
  data : List Scanner
  deriving Repr, DecidableEq

/-- `ESCLDiscovery.startDiscovery` (src/unnamed/part_001 lines 99–149) as a
function of the probed environment and the sequence of helper messages
that arrive before the timeout expires. Validation failure rejects the
promise; otherwise the registry is cleared and the call resolves at the
first success message with `success: true` and the registry at that
instant (the message's device set, name-keyed), or at the timeout with
`success: true` and the registry as it stands — still empty, since only
success messages populate it. -/
def startDiscovery (env : DiscoveryEnv) (messages : List HelperMessage) :
    Except String DiscoveryResponse :=
  match validatePythonPath env with
  | .error e => .error e
  | .ok _ =>
      match firstSuccess messages with
      | some scanners => .ok ⟨true, registryAfterSuccess scanners⟩
      | none => .ok ⟨true, []⟩

/-! ## Supporting lemmas -/

theorem nodup_jsSetFold {α : Type} [DecidableEq α] (l : List α) :
    ∀ acc : List α, acc.Nodup →
      (l.foldl (fun acc x => if x ∈ acc then acc else acc ++ [x]) acc).Nodup := by
  induction l with
  | nil => intro acc h; simpa using h
  | cons x xs ih =>
      intro acc h
      simp only [List.foldl_cons]
      by_cases hx : x ∈ acc
      · rw [if_pos hx]; exact ih acc h
      · rw [if_neg hx]
        refine ih _ ?_
        simp [List.nodup_append, h, hx]

theorem jsSetDedup_nodup {α : Type} [DecidableEq α] (l : List α) :
    (jsSetDedup l).Nodup :=
  nodup_jsSetFold l [] (by simp)

theorem sortAsc_sorted (l : List Nat) : (sortAsc l).Sorted (· ≤ ·) :=
  List.sorted_insertionSort _ l

theorem sortAsc_perm (l : List Nat) : List.Perm (sortAsc l) l :=
  List.perm_insertionSort _ l

theorem sortAsc_jsSetDedup_sorted_lt (l : List Nat) :
    (sortAsc (jsSetDedup l)).Sorted (· < ·) := by
  have h1 := sortAsc_sorted (jsSetDedup l)
  have h2 : (sortAsc (jsSetDedup l)).Nodup :=
    ((sortAsc_perm (jsSetDedup l)).nodup_iff).mpr (jsSetDedup_nodup l)
  exact h1.lt_of_le h2

theorem sortAsc_jsSetDedup_nodup (l : List Nat) :
    (sortAsc (jsSetDedup l)).Nodup :=
  ((sortAsc_perm (jsSetDedup l)).nodup_iff).mpr (jsSetDedup_nodup l)

/-! ## Claim theorems -/

/-- C6: for every capability document, the parsed resolutions list is
sorted strictly ascending and contains no duplicates, regardless of the
order or repetition of `XResolution` entries in the input; an input with
`XResolution` values 600, 200, 600, 300 yields `[200, 300, 600]`; the
`colorModes`, `sources` and `documentFormats` lists likewise contain no
duplicates. -/
theorem parseCapabilities_sorted_nodup :
    (∀ xml : CapabilitiesXml,
        (parseCapabilities xml).resolutions.Sorted (· < ·) ∧
        (parseCapabilities xml).resolutions.Nodup ∧
        (parseCapabilities xml).colorModes.Nodup ∧
        (parseCapabilities xml).sources.Nodup ∧
        (parseCapabilities xml).documentFormats.Nodup) ∧
    (parseCapabilities
        ⟨[600, 200, 600, 300], [], [], [], false, false, []⟩).resolutions
      = [200, 300, 600] := by
  constructor
  · intro xml
    exact ⟨sortAsc_jsSetDedup_sorted_lt _, sortAsc_jsSetDedup_nodup _,
      jsSetDedup_nodup _, jsSetDedup_nodup _, jsSetDedup_nodup _⟩
  · decide

set_option maxRecDepth 8000 in
/-- C7: `createScanJob` converts the requested width and height from
millimetres to 1/300-inch units by `round(mm / 25.4 * 300)` — defaulting
to A4 (210×297mm) when omitted — and for `dpi = 300`, `widthMm = 210`,
`heightMm = 297` the emitted scan-settings document contains region
dimensions `Width = 2480` and `Height = 3508`. -/
theorem buildScanSettings_a4_region_units :
    widthInUnits (some 210) = 2480 ∧ heightInUnits (some 297) = 3508 ∧
    widthInUnits none = 2480 ∧ heightInUnits none = 3508 ∧
    strContainsSub
        (buildScanSettings 300 "RGB24" "Platen" "image/jpeg"
          (some 210) (some 297))
        "<pwg:Width>2480</pwg:Width>" = true ∧
    strContainsSub
        (buildScanSettings 300 "RGB24" "Platen" "image/jpeg"
          (some 210) (some 297))
        "<pwg:Height>3508</pwg:Height>" = true := by
  have hw : widthInUnits (some 210) = 2480 := by
    unfold widthInUnits jsRound
    rw [Int.floor_eq_iff]
    norm_num
  have hh : heightInUnits (some 297) = 3508 := by
    unfold heightInUnits jsRound
    rw [Int.floor_eq_iff]
    norm_num
  have hw0 : widthInUnits none = 2480 := by
    unfold widthInUnits jsRound
    rw [Int.floor_eq_iff]
    norm_num
  have hh0 : heightInUnits none = 3508 := by
    unfold heightInUnits jsRound
    rw [Int.floor_eq_iff]
    norm_num
  refine ⟨hw, hh, hw0, hh0, ?_, ?_⟩
  · simp only [buildScanSettings, hw, hh]
    decide
  · simp only [buildScanSettings, hw, hh]
    decide

/-- C2: every `createScanJob` call failing with an HTTP status throws a
status-classified error: 409 → `[SCANNER_BUSY]` (device busy); 500 with
source `Feeder` → `[ADF_NO_DOCUMENT]`; 503 → `[SCANNER_UNAVAILABLE]`; any
other failing status — including 500 with source `Platen` — rethrows the
generic transport error; in every case an error is thrown, never
swallowed. -/
theorem createScanJob_status_classification :
    ∀ (source : String) (status : Nat) (body : String)
      (location : Option String),
      ¬(status = 201 ∨ status = 200) →
      (∃ e, createScanJob source (.response status body location)
        = .error e) ∧
      (status = 409 →
        createScanJob source (.response status body location)
          = .error .scannerBusy) ∧
      (status = 500 → source = "Feeder" →
        createScanJob source (.response status body location)
          = .error .adfNoDocument) ∧
      (status = 503 →
        createScanJob source (.response status body location)
          = .error .scannerUnavailable) ∧
      (status ≠ 409 → ¬(status = 500 ∧ source = "Feeder") → status ≠ 503 →
        createScanJob source (.response status body location)
          = .error (.rethrown (some status))) := by
  intro source status body location hbad
  simp only [createScanJob, httpPost, if_neg hbad]
  refine ⟨?_, ?_, ?_, ?_, ?_⟩
  · split
    · exact ⟨_, rfl⟩
    · split
      · exact ⟨_, rfl⟩
      · split
        · exact ⟨_, rfl⟩
        · exact ⟨_, rfl⟩
  · intro h409
    subst h409
    simp
  · intro h500 hsrc
    subst h500
    subst hsrc
    simp
  · intro h503
    subst h503
    simp
  · intro h1 h2 h3
    rw [if_neg (by simpa using h1), if_neg (by simpa using h2),
      if_neg (by simpa using h3)]

/-- Witness for C2: a 500 response to job creation with source `Feeder`
rejects with the `[ADF_NO_DOCUMENT]` classification. -/
theorem createScanJob_status_classification_witness :
    createScanJob "Feeder" (.response 500 "" none)
      = .error .adfNoDocument :=
  ((createScanJob_status_classification "Feeder" 500 "" none
    (by decide)).2.2.1) rfl rfl

theorem not_jobIdPatternAt_of_le (s : List Char) (i : Nat)
    (h : s.length ≤ i) : ¬ jobIdPatternAt s i := by
  intro hpat
  have h1 := hpat.1
  rw [List.drop_eq_nil_of_le h] at h1
  exact absurd h1 (by decide)

theorem findJobId_eq_none (s : List Char)
    (h : ∀ i, ¬ jobIdPatternAt s i) : findJobId s = none := by
  induction s with
  | nil => rfl
  | cons c cs ih =>
      have hshift : ∀ i, ¬ jobIdPatternAt cs i := by
        intro i hpat
        refine h (i + 1) ?_
        refine ⟨?_, ?_⟩
        · simpa [List.drop_succ_cons] using hpat.1
        · have := hpat.2
          simpa [List.drop_succ_cons, Nat.add_right_comm i 1] using this
      by_cases hb : charsBegin jobIdLiteral (c :: cs) = true
      · have hrun :
            (((c :: cs).drop jobIdLiteral.length).takeWhile
              isJobIdChar).isEmpty = true := by
          by_contra hne
          refine h 0 ⟨by simpa using hb, ?_⟩
          cases hd : (c :: cs).drop jobIdLiteral.length with
          | nil =>
              refine absurd ?_ hne
              rw [hd]
              rfl
          | cons d ds =>
              by_cases hdchar : isJobIdChar d = true
              · simpa [jobIdCharAtHead, hd] using hdchar
              · have hdchar' : isJobIdChar d = false := by
                  revert hdchar
                  cases isJobIdChar d <;> simp
                refine absurd ?_ hne
                rw [hd]
                simp [List.takeWhile, hdchar']
        simp only [findJobId, if_pos hb, if_pos hrun]
        exact ih hshift
      · simp only [findJobId, if_neg hb]
        exact ih hshift

/-- C10: when the job-creation POST succeeds (status 200 or 201) but the
resolved response value (`data || location || ''`) contains no substring
matching `/eSCL/ScanJobs/<hex-and-dash id>`, `createScanJob` resolves to
`null` rather than throwing — a missing job identifier is not surfaced as
an error. -/
theorem createScanJob_missing_jobId_resolves_null :
    ∀ (source : String) (status : Nat) (body : String)
      (location : Option String),
      (status = 201 ∨ status = 200) →
      (∀ i, ¬ jobIdPatternAt (postResolvedValue body location).data i) →
      createScanJob source (.response status body location) = .ok none := by
  intro source status body location hok hnone
  simp only [createScanJob, httpPost, if_pos hok]
  simp [extractJobId, findJobId_eq_none _ hnone]

/-- Witness for C10: a 201 response whose body lacks the job-id pattern
resolves to `null`. -/
theorem createScanJob_missing_jobId_resolves_null_witness :
    createScanJob "Platen" (.response 201 "created" none) = .ok none :=
  createScanJob_missing_jobId_resolves_null "Platen" 201 "created" none
    (Or.inl rfl)
    (by
      intro i
      rcases Nat.lt_or_ge i 7 with hlt | hge
      · revert hlt
        revert i
        decide
      · exact not_jobIdPatternAt_of_le _ _ (by simpa using hge))

theorem downloadNextDocument_all409 (device : Nat → DeviceResponse)
    (d : Nat) (isAdf : Bool) :
    ∀ (n idx : Nat), (∀ k, k < n → device (idx + k) = .httpError 409) →
      downloadNextDocument device d isAdf n idx
        = (.thrownScannerBusy, idx + n, n * d) := by
  intro n
  induction n with
  | zero => intro idx _; simp [downloadNextDocument]
  | succ n ih =>
      intro idx h
      have h0 : device idx = .httpError 409 := by
        simpa using h 0 (Nat.succ_pos n)
      have hrec := ih (idx + 1) (fun k hk => by
        have := h (k + 1) (by omega)
        simpa [Nat.add_assoc, Nat.add_comm 1 k] using this)
      simp only [downloadNextDocument, h0]
      rw [if_pos trivial, hrec]
      have e1 : idx + 1 + n = idx + (n + 1) := by omega
      have e2 : d + n * d = (n + 1) * d := by ring
      simp [e1, e2]

theorem downloadNextDocument_409_then_ok (device : Nat → DeviceResponse)
    (d : Nat) (isAdf : Bool) :
    ∀ (m n idx : Nat) (bytes : List Nat), m < n →
      (∀ k, k < m → device (idx + k) = .httpError 409) →
      device (idx + m) = .ok bytes →
      downloadNextDocument device d isAdf n idx
        = (.image bytes, idx + m + 1, m * d) := by
  intro m
  induction m with
  | zero =>
      intro n idx bytes hmn _ hok
      cases n with
      | zero => omega
      | succ n =>
          have hok' : device idx = .ok bytes := by simpa using hok
          simp [downloadNextDocument, hok']
  | succ m ih =>
      intro n idx bytes hmn h409 hok
      cases n with
      | zero => omega
      | succ n =>
          have h0 : device idx = .httpError 409 := by
            simpa using h409 0 (Nat.succ_pos m)
          have hrec := ih n (idx + 1) bytes (by omega)
            (fun k hk => by
              have := h409 (k + 1) (by omega)
              simpa [Nat.add_assoc, Nat.add_comm 1 k] using this)
            (by
              have := hok
              simpa [Nat.add_assoc, Nat.add_comm 1 m] using this)
          simp only [downloadNextDocument, h0]
          rw [if_pos trivial, hrec]
          have e1 : idx + 1 + m + 1 = idx + (m + 1) + 1 := by omega
          have e2 : d + m * d = (m + 1) * d := by ring
          simp [e1, e2]

/-- C3: every page-retrieval attempt receiving a 409 waits the fixed
1000ms delay and retries, up to the maximum of 30 attempts; 30 consecutive
409s make `downloadNextDocument` raise `[SCANNER_BUSY]` after 30 fixed
waits (it neither loops forever nor silently returns `null`), while `m`
409s followed by a success retry through to the image after `m` fixed
waits. The 30/1000 arguments are those of the `quickScan` call site. -/
theorem downloadNextDocument_busy_retry_bound :
    ∀ (device : Nat → DeviceResponse) (isAdf : Bool) (idx : Nat),
      ((∀ k, k < 30 → device (idx + k) = .httpError 409) →
        downloadNextDocument device 1000 isAdf 30 idx
          = (.thrownScannerBusy, idx + 30, 30 * 1000)) ∧
      (∀ (m : Nat) (bytes : List Nat), m < 30 →
        (∀ k, k < m → device (idx + k) = .httpError 409) →
        device (idx + m) = .ok bytes →
        downloadNextDocument device 1000 isAdf 30 idx
          = (.image bytes, idx + m + 1, m * 1000)) := by
  intro device isAdf idx
  exact ⟨downloadNextDocument_all409 device 1000 isAdf 30 idx,
    fun m bytes hm h409 hok =>
      downloadNextDocument_409_then_ok device 1000 isAdf m 30 idx bytes
        hm h409 hok⟩

/-- Witness for C3: a device answering 409 forever exhausts the 30
attempts and raises `[SCANNER_BUSY]` after 30000ms of waits; a device
answering 409 four times and then serving the page yields the image after
4000ms of waits. -/
theorem downloadNextDocument_busy_retry_bound_witness :
    downloadNextDocument (fun _ => .httpError 409) 1000 false 30 0
      = (.thrownScannerBusy, 0 + 30, 30 * 1000) ∧
    downloadNextDocument
        (fun i => if i < 4 then .httpError 409 else .ok [7]) 1000 true 30 0
      = (.image [7], 0 + 4 + 1, 4 * 1000) :=
  ⟨(downloadNextDocument_busy_retry_bound (fun _ => .httpError 409)
      false 0).1 (fun _ _ => rfl),
   (downloadNextDocument_busy_retry_bound
      (fun i => if i < 4 then .httpError 409 else .ok [7]) true 0).2
      4 [7] (by decide) (fun k hk => by interval_cases k <;> rfl)
      (by decide)⟩

theorem scanLoop_platen_start_ok (device : Nat → DeviceResponse)
    (documentFormat : String) (fuel : Nat) (r : List SavedFile)
    (h : scanLoop device false documentFormat fuel 1 0 []
      = some (.ok r)) : r.length = 1 := by
  cases fuel with
  | zero => simp [scanLoop] at h
  | succ n =>
      simp only [scanLoop] at h
      split at h
      · simp at h
        subst h
        rfl
      · simp at h
      · simp at h
      · simp at h

theorem scanLoop_ok_ne_nil (device : Nat → DeviceResponse) (isAdf : Bool)
    (documentFormat : String) :
    ∀ (fuel pageNum idx : Nat) (acc r : List SavedFile),
      acc.length + 1 = pageNum →
      scanLoop device isAdf documentFormat fuel pageNum idx acc
        = some (.ok r) →
      r ≠ [] := by
  intro fuel
  induction fuel with
  | zero => intro pageNum idx acc r _ h; simp [scanLoop] at h
  | succ n ih =>
      intro pageNum idx acc r hinv h
      simp only [scanLoop] at h
      split at h
      · split at h
        · exact ih (pageNum + 1) _ _ r (by simp [← hinv]) h
        · simp at h
          subst h
          simp
      · split at h
        · simp at h
        · rename_i hne1
          simp at h
          subst h
          intro hnil
          rw [hnil] at hinv
          simp at hinv
          omega
      · simp at h
      · simp at h

/-- C4: with source `Platen` the download loop persists exactly one page —
after the first successful page it terminates unconditionally, even when a
second page would succeed — while with source `Feeder` the same device
behaviour yields both pages, the loop continuing until the 404. -/
theorem quickScan_platen_single_page :
    (∀ (mode documentFormat : String)
        (createResult : Except CreateJobError (Option String))
        (device : Nat → DeviceResponse) (deleteFails : Bool)
        (fuel d : Nat) (paths : List SavedFile),
      quickScan mode .platen documentFormat createResult device deleteFails
          fuel = some (.ok (some paths), d) →
      paths.length = 1) ∧
    quickScan "color" .platen "image/jpeg" (.ok (some "job-1"))
        (fun i => if i < 2 then .ok [i] else .httpError 404) false 5
      = some (.ok (some [⟨1, "jpg", [0]⟩]), 1) ∧
    quickScan "color" .feeder "image/jpeg" (.ok (some "job-1"))
        (fun i => if i < 2 then .ok [i] else .httpError 404) false 5
      = some (.ok (some [⟨1, "jpg", [0]⟩, ⟨2, "jpg", [1]⟩]), 1) := by
  refine ⟨?_, by rfl, by rfl⟩
  intro mode documentFormat createResult device deleteFails fuel d paths h
  simp only [quickScan] at h
  split at h
  · simp at h
  · split at h
    · simp at h
    · simp at h
    · split at h
      · simp at h
      · simp at h
      · rename_i filePaths heq
        simp only [Option.some.injEq, Prod.mk.injEq, Except.ok.injEq] at h
        have hlen : filePaths.length = 1 :=
          scanLoop_platen_start_ok device documentFormat fuel filePaths heq
        have hpos : filePaths.length > 0 := by omega
        rw [if_pos hpos] at h
        have hfp : filePaths = paths := by simpa using h.1
        rw [← hfp]
        exact hlen

/-- Witness for C4: the Platen session over a device that would serve two
pages resolves with a single saved page. -/
theorem quickScan_platen_single_page_witness :
    ([(⟨1, "jpg", [0]⟩ : SavedFile)]).length = 1 :=
  quickScan_platen_single_page.1 "color" "image/jpeg" (.ok (some "job-1"))
    (fun i => if i < 2 then .ok [i] else .httpError 404) false 5 1
    [⟨1, "jpg", [0]⟩] (by rfl)

/-- C5: a Feeder session in which the device serves exactly 3 pages and
then a 404 persists exactly 3 files, one per page in page order, and
resolves successfully — the trailing 404 is normal end-of-pages, not an
error. -/
theorem quickScan_feeder_three_pages_then_404 :
    quickScan "color" .feeder "image/jpeg" (.ok (some "job-1"))
        (fun i => if i < 3 then .ok [i] else .httpError 404) false 5
      = some (.ok (some [⟨1, "jpg", [0]⟩, ⟨2, "jpg", [1]⟩,
          ⟨3, "jpg", [2]⟩]), 1) := by
  rfl

/-- C9: whenever `quickScan` resolves without throwing, the resolved value
is a non-empty list of file paths — the `return null` branch is
unreachable. -/
theorem quickScan_resolves_nonempty :
    ∀ (mode : String) (source : ScanSource) (documentFormat : String)
      (createResult : Except CreateJobError (Option String))
      (device : Nat → DeviceResponse) (deleteFails : Bool) (fuel d : Nat)
      (v : Option (List SavedFile)),
      quickScan mode source documentFormat createResult device deleteFails
          fuel = some (.ok v, d) →
      ∃ paths, v = some paths ∧ paths ≠ [] := by
  intro mode source documentFormat createResult device deleteFails fuel d v h
  simp only [quickScan] at h
  split at h
  · simp at h
  · split at h
    · simp at h
    · simp at h
    · split at h
      · simp at h
      · simp at h
      · rename_i filePaths heq
        have hne : filePaths ≠ [] :=
          scanLoop_ok_ne_nil device (isAdfSource source) documentFormat
            fuel 1 0 [] filePaths rfl heq
        simp only [Option.some.injEq, Prod.mk.injEq, Except.ok.injEq] at h
        have hpos : filePaths.length > 0 := by
          cases filePaths with
          | nil => exact absurd rfl hne
          | cons a l => simp
        rw [if_pos hpos] at h
        exact ⟨filePaths, h.1.symm, hne⟩

/-- Witness for C9: a one-page Platen session resolves with a non-empty
list. -/
theorem quickScan_resolves_nonempty_witness :
    ∃ paths, (some [(⟨1, "jpg", [0]⟩ : SavedFile)]
        : Option (List SavedFile)) = some paths ∧ paths ≠ [] :=
  quickScan_resolves_nonempty "color" .platen "image/jpeg"
    (.ok (some "job-1")) (fun i => if i < 2 then .ok [i] else .httpError 404)
    false 5 1 (some [⟨1, "jpg", [0]⟩]) (by rfl)

/-- C1 counterexample: in the session whose very first page retrieval
returns 404, the download loop ends by raising the classified first-page
failure and the job-deletion attempt count is 0 — deletion is not
attempted once on this termination path, contrary to the claim. -/
theorem quickScan_cleanup_on_error_counterexample :
    quickScan "color" .platen "image/jpeg" (.ok (some "job-1"))
        (fun _ => .httpError 404) false 5
      = some (.error .firstPageFailed, 0) ∧
    (quickScan "color" .platen "image/jpeg" (.ok (some "job-1"))
        (fun _ => .httpError 404) false 5).map (fun p => p.2) ≠ some 1 := by
  exact ⟨rfl, by decide⟩

/-- C1 (amended): job deletion is attempted exactly once when the download
loop terminates normally, but not at all when the session ends by raising
an error (job-creation failure or a classified loop error); and the
outcome of the deletion itself never changes the session's result or
error. -/
theorem quickScan_cleanup_only_on_normal_exit :
    ∀ (mode : String) (source : ScanSource) (documentFormat : String)
      (createResult : Except CreateJobError (Option String))
      (device : Nat → DeviceResponse) (fuel : Nat),
      (∀ (deleteFails : Bool) (v : Option (List SavedFile)) (d : Nat),
        quickScan mode source documentFormat createResult device deleteFails
            fuel = some (.ok v, d) → d = 1) ∧
      (∀ (deleteFails : Bool) (e : QuickScanError) (d : Nat),
        quickScan mode source documentFormat createResult device deleteFails
            fuel = some (.error e, d) → d = 0) ∧
      (∀ a b : Bool,
        quickScan mode source documentFormat createResult device a fuel
          = quickScan mode source documentFormat createResult device b
              fuel) := by
  intro mode source documentFormat createResult device fuel
  refine ⟨?_, ?_, ?_⟩
  · intro df v d h
    simp only [quickScan] at h
    split at h
    · simp at h
    · split at h
      · simp at h
      · simp at h
      · split at h
        · simp at h
        · simp at h
        · simp only [Option.some.injEq, Prod.mk.injEq] at h
          exact h.2.symm
  · intro df e d h
    simp only [quickScan] at h
    split at h
    · simp only [Option.some.injEq, Prod.mk.injEq] at h
      exact h.2.symm
    · split at h
      · simp only [Option.some.injEq, Prod.mk.injEq] at h
        exact h.2.symm
      · simp only [Option.some.injEq, Prod.mk.injEq] at h
        exact h.2.symm
      · split at h
        · simp at h
        · simp only [Option.some.injEq, Prod.mk.injEq] at h
          exact h.2.symm
        · simp at h
  · intro a b
    rfl

/-- Witness for the amended C1: a successful session deletes once, a
failed session deletes zero times, and a failing DELETE leaves the result
unchanged. -/
theorem quickScan_cleanup_only_on_normal_exit_witness :
    (1 : Nat) = 1 ∧ (0 : Nat) = 0 ∧
    quickScan "color" .platen "image/jpeg" (.ok (some "job-1"))
        (fun _ => .httpError 404) true 5
      = quickScan "color" .platen "image/jpeg" (.ok (some "job-1"))
        (fun _ => .httpError 404) false 5 :=
  ⟨(quickScan_cleanup_only_on_normal_exit "color" .feeder "image/jpeg"
      (.ok (some "job-1"))
      (fun i => if i < 3 then .ok [i] else .httpError 404) 5).1 false
      (some [⟨1, "jpg", [0]⟩, ⟨2, "jpg", [1]⟩, ⟨3, "jpg", [2]⟩]) 1 (by rfl),
   (quickScan_cleanup_only_on_normal_exit "color" .platen "image/jpeg"
      (.ok (some "job-1")) (fun _ => .httpError 404) 5).2.1 false
      .firstPageFailed 0 (by rfl),
   (quickScan_cleanup_only_on_normal_exit "color" .platen "image/jpeg"
      (.ok (some "job-1")) (fun _ => .httpError 404) 5).2.2 true false⟩

theorem firstSuccess_eq_none (messages : List HelperMessage)
    (h : ∀ s, HelperMessage.success s ∉ messages) :
    firstSuccess messages = none := by
  induction messages with
  | nil => rfl
  | cons m rest ih =>
      cases m with
      | success s => exact absurd (List.mem_cons_self _ _) (h s)
      | failure e =>
          simp only [firstSuccess]
          exact ih (fun s hs => h s (List.mem_cons_of_mem _ hs))
      | malformed =>
          simp only [firstSuccess]
          exact ih (fun s hs => h s (List.mem_cons_of_mem _ hs))

theorem validate_error_characterization (env : DiscoveryEnv) :
    (∃ e, validatePythonPath env = .error e) ↔
      (env.binaryPath = none ∧
        ((env.pythonPathIsAbsolute = true ∧ env.pythonPathExists = false) ∨
         (env.pythonPathIsAbsolute = false ∧
           env.resolvedPythonPathExists = false))) := by
  rcases env with ⟨bp, abs, ex, rex⟩
  cases bp <;> cases abs <;> cases ex <;> cases rex <;>
    simp [validatePythonPath]

/-- C8: a discovery attempt in which the helper sends no success message
before the timeout resolves — does not reject — with `success: true` and an
empty device list; and `startDiscovery` rejects exactly when no prebuilt
binary exists and the configured python path fails its existence probe. -/
theorem startDiscovery_timeout_and_reject :
    ∀ (env : DiscoveryEnv) (messages : List HelperMessage),
      ((∀ s, HelperMessage.success s ∉ messages) →
        validatePythonPath env = .ok () →
        startDiscovery env messages = .ok ⟨true, []⟩) ∧
      ((∃ e, startDiscovery env messages = .error e) ↔
        (env.binaryPath = none ∧
          ((env.pythonPathIsAbsolute = true ∧
              env.pythonPathExists = false) ∨
           (env.pythonPathIsAbsolute = false ∧
              env.resolvedPythonPathExists = false)))) := by
  intro env messages
  constructor
  · intro hnos hval
    simp only [startDiscovery, hval]
    rw [firstSuccess_eq_none messages hnos]
  · rw [← validate_error_characterization env]
    constructor
    · rintro ⟨e, he⟩
      simp only [startDiscovery] at he
      cases hv : validatePythonPath env with
      | error e2 => exact ⟨e2, rfl⟩
      | ok u =>
          rw [hv] at he
          simp only at he
          cases hf : firstSuccess messages with
          | some s => rw [hf] at he; simp at he
          | none => rw [hf] at he; simp at he
    · rintro ⟨e, he⟩
      refine ⟨e, ?_⟩
      simp only [startDiscovery, he]

/-- Witness for C8: with the prebuilt binary present and only an error
message arriving before the timeout, discovery resolves with
`success: true` and no devices. -/
theorem startDiscovery_timeout_and_reject_witness :
    startDiscovery ⟨some "escl-scanner", false, false, false⟩
        [.failure "boom", .malformed] = .ok ⟨true, []⟩ :=
  (startDiscovery_timeout_and_reject
      ⟨some "escl-scanner", false, false, false⟩
      [.failure "boom", .malformed]).1
    (by intro s hs; simp at hs) rfl

end ESCL
